import Mathlib

/-!
Verification of the symmetry desktop frontend orchestration layer.

Shallow embedding of the Electron/React frontend of the symmetry project:
the HTTP query-string construction of the service layer
(`fetchArticle.ts`, `translateArticle.ts`, `compareArticles.ts`),
the axios client resolution (`axios.ts`), the configuration resolution
(`AppConstants.ts`), the compare form orchestration and result rendering
(`ComparisonSection.tsx`), the session-storage handoff
(`TranslationSection.tsx` / `ComparisonSection.tsx`) and the
privileged-process start-backend handler (the Electron main file).

JavaScript builtins that the source relies on (the falsy test behind the
binary-or defaulting operator, `encodeURIComponent`, the axios settlement
discipline for abort signals) are modelled explicitly; each model is
documented at its definition.
-/

namespace SymmetryFrontend

/-! ### Model of the JavaScript `encodeURIComponent` builtin

`encodeURIComponent` leaves the unreserved characters
`A-Z a-z 0-9 - _ . ! ~ * ( )` and the apostrophe unchanged and replaces
every other character by the percent-encoding of its UTF-8 bytes, with
uppercase hexadecimal digits. -/

/-- The characters `encodeURIComponent` leaves unescaped: ASCII letters and
digits plus `- _ . ! ~ * ( )` and the apostrophe (code point 39). -/
def isUnreservedChar (c : Char) : Bool :=
  c.isAlpha || c.isDigit || c = '-' || c = '_' || c = '.' || c = '!' ||
    c = '~' || c = '*' || c = Char.ofNat 39 || c = '(' || c = ')'

/-- Uppercase hexadecimal digit for a value below 16 (the argument is
reduced modulo 16, which is the identity on every actual call site). -/
def hexDigitChar (n : Nat) : Char :=
  let m := n % 16
  Char.ofNat (if m < 10 then 48 + m else 55 + m)

/-- The two uppercase hexadecimal digits of a byte. -/
def byteToHex (b : Nat) : List Char :=
  [hexDigitChar (b / 16), hexDigitChar (b % 16)]

/-- `%XX` percent-escape of one byte. -/
def percentByte (b : Nat) : List Char :=
  '%' :: byteToHex b

/-- UTF-8 bytes of a single character. -/
def utf8Bytes (c : Char) : List Nat :=
  let n := c.toNat
  if n < 0x80 then [n]
  else if n < 0x800 then [0xC0 + n / 0x40, 0x80 + n % 0x40]
  else if n < 0x10000 then
    [0xE0 + n / 0x1000, 0x80 + n / 0x40 % 0x40, 0x80 + n % 0x40]
  else
    [0xF0 + n / 0x40000, 0x80 + n / 0x1000 % 0x40, 0x80 + n / 0x40 % 0x40,
      0x80 + n % 0x40]

/-- Encoding of one character: unreserved characters stay, every other
character becomes the percent-escapes of its UTF-8 bytes. -/
def encodeChar (c : Char) : List Char :=
  if isUnreservedChar c then [c] else (utf8Bytes c).flatMap percentByte

/-- Model of the JavaScript `encodeURIComponent` builtin. -/
def encodeURIComponent (s : String) : String :=
  ⟨s.data.flatMap encodeChar⟩

/-! ### `services/fetchArticle.ts` — query serialization

The `paramsSerializer` of `fetchArticle` returns the template string
`query=${encodeURIComponent(query)}`. -/

/-- The `paramsSerializer` of `fetchArticle`, applied to the single
`query` parameter (the source article URL). -/
def fetchArticleParamsSerializer (query : String) : String :=
  "query=" ++ encodeURIComponent query

/-! ### `services/translateArticle.ts` — query serialization

The `paramsSerializer` of `translateArticle` folds over the entries of
the params object `{title, language}` (in insertion order) and pushes
`key=value` raw for the `title` key and `key=encodeURIComponent(value)`
for every other key, joining the pieces with `&`. -/

/-- One entry of the translate params object, serialized: the `title` key
is passed through raw, any other key is percent-encoded. -/
def serializeTranslateEntry (key value : String) : String :=
  if key = "title" then key ++ "=" ++ value
  else key ++ "=" ++ encodeURIComponent value

/-- The `paramsSerializer` of `translateArticle`, applied to the params
object `{title := article_name, language := target_language}`. -/
def translateArticleParamsSerializer (article_name target_language : String) : String :=
  String.intercalate "&"
    ([("title", article_name), ("language", target_language)].map
      fun kv => serializeTranslateEntry kv.1 kv.2)

/-! ### `services/axios.ts` — client resolution with fallback

`getAxiosInstance` awaits `window.electronAPI.getAppConfig()`, throws when
the returned object is undefined or its `BACKEND_BASE_URL` field is falsy,
and builds a client from the configured base URL with a 30000 ms timeout;
every failure (a rejected bridge call included) is caught and answered
with a client bound to the hardcoded `http://127.0.0.1:8000` with the
same timeout. -/

/-- The client value `axios.create` produces: base URL plus timeout. -/
structure AxiosClient where
  baseURL : String
  timeout : Int
deriving DecidableEq, Repr

/-- The object the bridge hands back for `getAppConfig`: the
`BACKEND_BASE_URL` field may be absent. -/
structure BridgeConfig where
  BACKEND_BASE_URL : Option String
deriving DecidableEq, Repr

/-- Outcome of the awaited `window.electronAPI.getAppConfig()` call:
either the promise rejected (bridge unreachable), or it resolved with a
possibly-undefined constants object (undefined when the configuration
load failed in the main process, which leaves `AppConstants` unset). -/
inductive BridgeResult where
  | failure (msg : String)
  | value (config : Option BridgeConfig)
deriving DecidableEq, Repr

/-- `getAxiosInstance` from `services/axios.ts`. Undefined constants and a
falsy `BACKEND_BASE_URL` throw into the local catch, which — like a
rejected bridge promise — answers the hardcoded fallback client instead
of propagating the error. -/
def getAxiosInstance (r : BridgeResult) : AxiosClient :=
  match r with
  | .failure _ => { baseURL := "http://127.0.0.1:8000", timeout := 30000 }
  | .value none => { baseURL := "http://127.0.0.1:8000", timeout := 30000 }
  | .value (some cfg) =>
    match cfg.BACKEND_BASE_URL with
    | none => { baseURL := "http://127.0.0.1:8000", timeout := 30000 }
    | some url =>
      if url = "" then { baseURL := "http://127.0.0.1:8000", timeout := 30000 }
      else { baseURL := url, timeout := 30000 }

/-! ### `constants/AppConstants.ts` — configuration resolution

`initializeConstants` reads and parses `config.json`; a missing or
malformed file throws. For a parsed file it builds the constants object,
defaulting every field with the JavaScript binary-or operator, which
falls back to the default not only for an absent key but for any falsy
configured value (0 for numbers, the empty string for strings). The
parsed data is modelled after the `AppConfig` interface of the source,
with every key optional; integral numeric fields are carried as `Int`
and the similarity threshold as `ℚ`, which is faithful here because the
source only tests these values for falsiness and interpolates the port
into a string, never computes with them. -/

/-- The parsed `config.json` contents (`AppConfig` interface): every key
optional. -/
structure ConfigData where
  BACKEND_BASE_URL : Option String
  BACKEND_PORT : Option Int
  FRONTEND_PORT : Option Int
  OLLAMA_BASE_URL : Option String
  DEFAULT_TIMEOUT : Option Int
  SIMILARITY_THRESHOLD : Option ℚ
deriving DecidableEq

/-- The resolved constants object. -/
structure AppConstants where
  BACKEND_BASE_URL : String
  BACKEND_PORT : Int
  FRONTEND_PORT : Int
  OLLAMA_BASE_URL : String
  DEFAULT_TIMEOUT : Int
  SIMILARITY_THRESHOLD : ℚ
deriving DecidableEq

/-- JavaScript `v || d` for an optional string: the default replaces an
absent value and the falsy empty string. -/
def jsOrString (v : Option String) (d : String) : String :=
  match v with
  | none => d
  | some s => if s = "" then d else s

/-- JavaScript `v || d` for an optional integral number: the default
replaces an absent value and the falsy 0. -/
def jsOrInt (v : Option Int) (d : Int) : Int :=
  match v with
  | none => d
  | some n => if n = 0 then d else n

/-- JavaScript `v || d` for an optional fractional number: the default
replaces an absent value and the falsy 0. -/
def jsOrRat (v : Option ℚ) (d : ℚ) : ℚ :=
  match v with
  | none => d
  | some q => if q = 0 then d else q

/-- The constants object `initializeConstants` builds from a successfully
parsed configuration file. The derived base URL interpolates
`configData.BACKEND_PORT || 8000`, the same expression that resolves the
`BACKEND_PORT` field. -/
def initializeConstants (configData : ConfigData) : AppConstants :=
  { BACKEND_BASE_URL := jsOrString configData.BACKEND_BASE_URL
      ("http://127.0.0.1:" ++ toString (jsOrInt configData.BACKEND_PORT 8000)),
    BACKEND_PORT := jsOrInt configData.BACKEND_PORT 8000,
    FRONTEND_PORT := jsOrInt configData.FRONTEND_PORT 5173,
    OLLAMA_BASE_URL := jsOrString configData.OLLAMA_BASE_URL "http://localhost:11434",
    DEFAULT_TIMEOUT := jsOrInt configData.DEFAULT_TIMEOUT 30000,
    SIMILARITY_THRESHOLD := jsOrRat configData.SIMILARITY_THRESHOLD 0.65 }

/-! ### `services/compareArticles.ts` — the compare request

`compareArticles` posts a JSON body with both texts, both language tags
and the fixed model name. The axios config it passes contains no
`signal` (and no `cancelToken`): the request carries no abort signal. -/

/-- One element of the `comparisons` array of the compare response. -/
structure ComparisonResult where
  left_article_array : List String
  right_article_array : List String
  left_article_missing_info_index : List Nat
  right_article_extra_info_index : List Nat
deriving DecidableEq, Repr

/-- The JSON body of the compare POST. -/
structure CompareRequestBody where
  article_text_blob_1 : String
  article_text_blob_2 : String
  article_text_blob_1_language : String
  article_text_blob_2_language : String
  model_name : String
deriving DecidableEq, Repr

/-- A POST request as handed to the axios client: path, body, and the
optional abort signal of the request config. -/
structure PostRequest where
  url : String
  body : CompareRequestBody
  signal : Option Unit
deriving DecidableEq, Repr

/-- The request `compareArticles` builds. No abort signal is attached:
the axios call passes only the path and the body. -/
def compareArticles (textA textB languageA languageB : String) : PostRequest :=
  { url := "/symmetry/v1/articles/compare",
    body := { article_text_blob_1 := textA,
              article_text_blob_2 := textB,
              article_text_blob_1_language := languageA,
              article_text_blob_2_language := languageB,
              model_name := "default" },
    signal := none }

/-- The shape the catch block of `ComparisonSection.onSubmit` sniffs on a
rejection: the axios error code, the optional response status and
`detail` field, and the message. -/
structure AxiosErrorShape where
  code : Option String
  responseStatus : Option Nat
  responseDetail : Option String
  message : String
deriving DecidableEq, Repr

/-- The rejection axios produces when an attached abort signal fires:
code `ERR_CANCELED`, no response. -/
def canceledError : AxiosErrorShape :=
  { code := some "ERR_CANCELED", responseStatus := none,
    responseDetail := none, message := "canceled" }

/-- What the backend would do with the request, were it allowed to
complete: answer a `comparisons` array or fail with some axios error. -/
inductive ServerBehavior where
  | respond (comparisons : List ComparisonResult)
  | fail (e : AxiosErrorShape)
deriving DecidableEq, Repr

/-- Model of the axios settlement discipline for cancellation: a request
promise settles as canceled (`ERR_CANCELED`) only when an abort signal
is attached to the request config and that signal is aborted while the
request is in flight; a request without a signal ignores every abort and
settles on the server outcome. -/
def axiosSettle (req : PostRequest) (abortedInFlight : Bool)
    (server : ServerBehavior) : Except AxiosErrorShape (List ComparisonResult) :=
  if req.signal.isSome && abortedInFlight then .error canceledError
  else
    match server with
    | .respond comparisons => .ok comparisons
    | .fail e => .error e

/-- The user-facing message the catch block of `ComparisonSection.onSubmit`
derives from a rejection, following its if-else chain. -/
def compareErrorMessage (e : AxiosErrorShape) (elapsedTime : Nat) : String :=
  if e.code = some "ECONNABORTED" then
    "Comparison request timed out after " ++ toString elapsedTime ++
      "s. The comparison is taking longer than expected. Please try again or reduce the amount of text being compared."
  else if e.code = some "ERR_CANCELED" then
    "Comparison was stopped by the user."
  else if e.responseStatus = some 400 then
    "Bad Request: " ++ e.responseDetail.getD "Invalid request parameters."
  else if e.responseStatus = some 404 then
    "Comparison endpoint not found (404). " ++
      e.responseDetail.getD "Please check that the backend server is running."
  else if e.responseStatus = some 422 then
    "Validation Error: " ++ e.responseDetail.getD "The request contains invalid data."
  else if 500 ≤ e.responseStatus.getD 0 then
    "Server error (" ++ toString (e.responseStatus.getD 0) ++ "): " ++
      e.responseDetail.getD "The backend encountered an error. Check backend logs for details."
  else if e.responseStatus = none then
    "Unable to connect to the backend server. Please ensure the backend is running at the configured URL. (" ++
      e.message ++ ")"
  else
    "Comparison failed: " ++ e.message

/-- The component state `ComparisonSection.onSubmit` leaves behind.
`comparisonResult` is cleared to null when the submission starts and set
again only on the success path (to the first element of `comparisons`,
null when the array is empty); `sourceText` and `targetText` are set
only on the success path (`none` here means left at their prior value);
the alert fires only from the catch block; the finally block clears the
loading and running flags. -/
structure SubmitOutcome where
  comparisonResult : Option ComparisonResult
  sourceText : Option String
  targetText : Option String
  alertMessage : Option String
  isLoading : Bool
  isRunning : Bool
deriving DecidableEq, Repr

/-- `ComparisonSection.onSubmit`: builds the compare request (through
`compareArticles`, hence without an abort signal), awaits its
settlement, and reads only `comparisons[0]` on success. -/
def onSubmit (sourceText targetText sourceLanguage targetLanguage : String)
    (abortedInFlight : Bool) (server : ServerBehavior) (elapsedTime : Nat) :
    SubmitOutcome :=
  let req := compareArticles sourceText targetText sourceLanguage targetLanguage
  match axiosSettle req abortedInFlight server with
  | .ok comparisons =>
    { comparisonResult := comparisons.head?,
      sourceText := some sourceText,
      targetText := some targetText,
      alertMessage := none,
      isLoading := false,
      isRunning := false }
  | .error e =>
    { comparisonResult := none,
      sourceText := none,
      targetText := none,
      alertMessage := some (compareErrorMessage e elapsedTime),
      isLoading := false,
      isRunning := false }

/-! ### `ComparisonSection.tsx` — results rendering

The results section renders, for a present `comparisonResult`: when the
right-side index list is nonempty, a heading and one list item per index
(1-based sentence number and the indexed element of the right array);
when the left-side index list is nonempty, the analogous section over the
left array; when both lists are empty, the no-differences message. JSX
renders an out-of-bounds (undefined) array access as empty text, hence
the `getD` with the empty string. -/

/-- A rendered node of the results section. -/
inductive RenderNode where
  | heading (label : String)
  | listItem (text : String)
  | message (text : String)
deriving DecidableEq, Repr

/-- The text of one rendered list item:
`Sentence (index + 1): "(array element at index)"`. -/
def renderedSentence (arr : List String) (index : Nat) : String :=
  "Sentence " ++ toString (index + 1) ++ ": \"" ++ arr.getD index "" ++ "\""

/-- The rendered results section for a present `comparisonResult`. -/
def renderResults (r : ComparisonResult) : List RenderNode :=
  (if r.right_article_extra_info_index.length > 0 then
    RenderNode.heading "Missing Information in Translation" ::
      r.right_article_extra_info_index.map
        (fun index => RenderNode.listItem (renderedSentence r.right_article_array index))
  else []) ++
  (if r.left_article_missing_info_index.length > 0 then
    RenderNode.heading "Extra Information in Translation" ::
      r.left_article_missing_info_index.map
        (fun index => RenderNode.listItem (renderedSentence r.left_article_array index))
  else []) ++
  (if r.right_article_extra_info_index.length = 0 ∧
      r.left_article_missing_info_index.length = 0 then
    [RenderNode.message "No significant differences found between the texts."]
  else [])

/-! ### The session-storage handoff

`TranslationSection.handleCompare` reads the four form values, attempts
to synthesize a click on the comparison-phase navigation button, and
writes the handoff object to `sessionStorage` under the `comparisonData`
key. The click attempt is guarded: the DOM query
`button[onClick*="Phase.AI_COMPARISON"]` selects on an `onClick`
attribute, but React installs `onClick` as an event listener and never
reflects it into a DOM attribute of the rendered button (the
`Home.tsx` phase buttons carry no such attribute), so the query yields
null in every reachable document state, the guarded click is skipped,
and `handleCompare` performs only the write. Navigation to the
comparison view is instead triggered afterwards by the user click on
the AI Comparison phase button, which mounts `ComparisonSection`. Its
mount effect reads the `comparisonData` key, and when a value is
present applies it to the form state and removes the key. The storage
slot is modelled at the structured-value level: `JSON.stringify` on
write and `JSON.parse` on read round-trip these four string fields. -/

/-- The handoff value passed from the translation view to the comparison
view. -/
structure CrossPageHandoff where
  sourceContent : String
  translatedContent : String
  sourceUrl : String
  targetLanguage : String
deriving DecidableEq, Repr

/-- The externally visible actions around the handoff, in order:
triggering navigation to the comparison view, or writing the handoff
value to session storage. -/
inductive HandoffAction where
  | navigate
  | write (payload : CrossPageHandoff)
deriving DecidableEq, Repr

/-- The result of the DOM query for the comparison-phase navigation
button: `none`, because the attribute selector
`button[onClick*="Phase.AI_COMPARISON"]` cannot match a React-rendered
button, whose click handler is an installed listener and not a DOM
attribute. -/
def comparisonButtonQuery : Option Unit :=
  none

/-- The action trace of `TranslationSection.handleCompare`: the click is
guarded on the DOM query result, which is null, so the guarded navigate
never fires and the trace is the session-storage write alone. -/
def handleCompare (payload : CrossPageHandoff) : List HandoffAction :=
  (match comparisonButtonQuery with
    | some _ => [HandoffAction.navigate]
    | none => []) ++
  [HandoffAction.write payload]

/-- The handoff flow from the Compare press to the comparison view: the
`handleCompare` trace, followed by the user click on the AI Comparison
phase button in `Home.tsx` — the action that actually triggers
navigation to (and the mount of) the comparison view. -/
def compareHandoffFlow (payload : CrossPageHandoff) : List HandoffAction :=
  handleCompare payload ++ [HandoffAction.navigate]

/-- Whether a write action occurs strictly before a navigate action in a
trace (first occurrences compared). -/
def writePrecedesNavigate (trace : List HandoffAction) : Bool :=
  match trace.findIdx? (fun a => match a with | .write _ => true | _ => false),
        trace.findIdx? (fun a => match a with | .navigate => true | _ => false) with
  | some i, some j => decide (i < j)
  | _, _ => false

/-- The session-storage mount effect of `ComparisonSection`: given the
stored slot at mount, the value the view loads (first component) and the
slot the effect leaves behind (second component). A present value is
loaded and the key removed; an absent value leaves everything alone. -/
def comparisonMountEffect (storage : Option CrossPageHandoff) :
    Option CrossPageHandoff × Option CrossPageHandoff :=
  match storage with
  | some d => (some d, none)
  | none => (none, none)

/-! ### The Electron main file — the `start-backend` IPC handler

The handler fires a best-effort kill of prior backend processes, calls
`execFile` for the spawn, and immediately returns `{success: true}`.
The `execFile` completion callback builds `{success: false, error}` when
the child failed, but a value returned from inside that callback is
discarded by `execFile`; it never reaches the renderer. Only a
synchronous throw before the return is caught and answered as
`{success: false, error}`. -/

/-- The value the `start-backend` handler resolves with. -/
structure StartBackendResult where
  success : Bool
  error : Option String
deriving DecidableEq, Repr

/-- The value computed inside the `execFile` completion callback: a
failure record when the child process errored, nothing otherwise. Its
return value goes nowhere — `execFile` ignores it. -/
def execFileCallback (childError : Option String) : Option StartBackendResult :=
  match childError with
  | some msg => some { success := false, error := some msg }
  | none => none

/-- The `start-backend` handler: a synchronous throw (modelled by the
first argument) is caught and reported; otherwise the handler returns
`{success: true}` unconditionally, whatever the child process later
does — the callback result is computed and dropped. -/
def startBackendHandler (syncThrow : Option String)
    (childError : Option String) : StartBackendResult :=
  match syncThrow with
  | some msg => { success := false, error := some msg }
  | none =>
    let _ := execFileCallback childError
    { success := true, error := none }

/-- No input makes `hexDigitChar` produce the ampersand. -/
theorem hexDigitChar_ne_amp (n : Nat) : hexDigitChar n ≠ '&' := by
  unfold hexDigitChar
  have hm : n % 16 < 16 := Nat.mod_lt _ (by norm_num)
  set m := n % 16 with hdef
  interval_cases m <;> decide

/-- The encoding of a single character never contains a raw ampersand. -/
theorem mem_encodeChar_ne_amp (c : Char) : ∀ x ∈ encodeChar c, x ≠ '&' := by
  intro x hx
  unfold encodeChar at hx
  by_cases h : isUnreservedChar c
  · rw [if_pos h] at hx
    simp only [List.mem_singleton] at hx
    subst hx
    intro hc
    subst hc
    exact absurd h (by decide)
  · rw [if_neg (by simpa using h)] at hx
    rw [List.mem_flatMap] at hx
    obtain ⟨b, _, hb⟩ := hx
    simp only [percentByte, byteToHex, List.mem_cons, List.not_mem_nil, or_false] at hb
    rcases hb with rfl | rfl | rfl
    · decide
    · exact hexDigitChar_ne_amp _
    · exact hexDigitChar_ne_amp _

/-- `encodeURIComponent` output never contains a raw ampersand. -/
theorem encodeURIComponent_amp_free (s : String) :
    '&' ∉ (encodeURIComponent s).data := by
  intro hmem
  unfold encodeURIComponent at hmem
  rw [show (String.mk (s.data.flatMap encodeChar)).data = s.data.flatMap encodeChar from rfl,
    List.mem_flatMap] at hmem
  obtain ⟨c, _, hc⟩ := hmem
  exact mem_encodeChar_ne_amp c _ hc rfl

/-- C1: the stop action cannot settle the compare request as canceled.
`compareArticles` attaches no abort signal to the POST, so an abort
during flight leaves the request to settle on the server response, which
does update `comparisonResult` and raises no stopped-by-user message;
the canceled branch of the catch block (third conjunct) is unreachable
from the stop action. -/
theorem compare_abort_not_canceled :
    (compareArticles "a" "b" "en" "en").signal = none ∧
    onSubmit "a" "b" "en" "en" true
        (ServerBehavior.respond [⟨["s1"], ["t1"], [], []⟩]) 5 =
      { comparisonResult := some ⟨["s1"], ["t1"], [], []⟩,
        sourceText := some "a", targetText := some "b",
        alertMessage := none, isLoading := false, isRunning := false } ∧
    compareErrorMessage canceledError 5 = "Comparison was stopped by the user." :=
  ⟨rfl, rfl, rfl⟩

/-- C2: `translateArticle` serializes `title` unencoded (a space in the
title stays a literal space, contrast the third conjunct) while
`language` is percent-encoded (a slash becomes `%2F`). -/
theorem translate_title_unencoded_language_encoded :
    (∀ article_name target_language : String,
      translateArticleParamsSerializer article_name target_language =
        "title=" ++ article_name ++ "&language=" ++ encodeURIComponent target_language) ∧
    translateArticleParamsSerializer "a b" "fr/ca" = "title=a b&language=fr%2Fca" ∧
    encodeURIComponent "a b" = "a%20b" := by
  refine ⟨fun t l => ?_, by decide, by decide⟩
  show ("title=" ++ t) ++ "&" ++ ("language=" ++ encodeURIComponent l) = _
  rw [← String.append_assoc]
  rw [String.append_assoc ("title=" ++ t) "&" "language="]
  rfl

/-- C3: `fetchArticle` percent-encodes the url exactly once — the query
string is `query=` followed by one application of `encodeURIComponent`
to the raw url, whose output never contains a raw ampersand; an
ampersand in the url comes out as `%26`. -/
theorem fetch_url_encoded_exactly_once :
    (∀ url : String,
      fetchArticleParamsSerializer url = "query=" ++ encodeURIComponent url) ∧
    (∀ url : String, '&' ∉ (encodeURIComponent url).data) ∧
    fetchArticleParamsSerializer "a&b" = "query=a%26b" :=
  ⟨fun _ => rfl, encodeURIComponent_amp_free, by decide⟩

/-- C4: a parsed configuration file with missing optional keys resolves
to the documented defaults: backend port 8000, frontend port 5173,
timeout 30000, similarity threshold 0.65, and a base URL derived from
the resolved backend port. -/
theorem config_missing_keys_resolve_to_defaults (configData : ConfigData) :
    (configData.BACKEND_PORT = none →
      (initializeConstants configData).BACKEND_PORT = 8000) ∧
    (configData.FRONTEND_PORT = none →
      (initializeConstants configData).FRONTEND_PORT = 5173) ∧
    (configData.DEFAULT_TIMEOUT = none →
      (initializeConstants configData).DEFAULT_TIMEOUT = 30000) ∧
    (configData.SIMILARITY_THRESHOLD = none →
      (initializeConstants configData).SIMILARITY_THRESHOLD = 0.65) ∧
    (configData.BACKEND_BASE_URL = none →
      (initializeConstants configData).BACKEND_BASE_URL =
        "http://127.0.0.1:" ++ toString (initializeConstants configData).BACKEND_PORT) := by
  refine ⟨fun h => ?_, fun h => ?_, fun h => ?_, fun h => ?_, fun h => ?_⟩ <;>
    simp [initializeConstants, jsOrInt, jsOrRat, jsOrString, h]

/-- Witness for C4: the empty configuration file resolves every field to
its default. -/
theorem config_missing_keys_resolve_to_defaults_witness :
    (initializeConstants ⟨none, none, none, none, none, none⟩).BACKEND_PORT = 8000 ∧
    (initializeConstants ⟨none, none, none, none, none, none⟩).FRONTEND_PORT = 5173 ∧
    (initializeConstants ⟨none, none, none, none, none, none⟩).DEFAULT_TIMEOUT = 30000 ∧
    (initializeConstants ⟨none, none, none, none, none, none⟩).SIMILARITY_THRESHOLD = 0.65 ∧
    (initializeConstants ⟨none, none, none, none, none, none⟩).BACKEND_BASE_URL =
      "http://127.0.0.1:" ++
        toString (initializeConstants ⟨none, none, none, none, none, none⟩).BACKEND_PORT := by
  have h := config_missing_keys_resolve_to_defaults ⟨none, none, none, none, none, none⟩
  exact ⟨h.1 rfl, h.2.1 rfl, h.2.2.1 rfl, h.2.2.2.1 rfl, h.2.2.2.2 rfl⟩

/-- C5: when the configuration cannot be obtained — the bridge call
rejects, or it resolves with an undefined constants object because the
configuration load failed — `getAxiosInstance` answers the hardcoded
fallback client (base URL `http://127.0.0.1:8000`, 30 second timeout)
instead of propagating the error. -/
theorem client_falls_back_on_config_failure (msg : String) :
    getAxiosInstance (BridgeResult.failure msg) =
      { baseURL := "http://127.0.0.1:8000", timeout := 30000 } ∧
    getAxiosInstance (BridgeResult.value none) =
      { baseURL := "http://127.0.0.1:8000", timeout := 30000 } :=
  ⟨rfl, rfl⟩

/-- C6: on a successful compare response the caller stores only the
first element of `comparisons`; the remaining elements do not influence
the resulting state at all. -/
theorem compare_caller_reads_only_first_comparison
    (a b la lb : String) (c : ComparisonResult)
    (rest rest' : List ComparisonResult) (t : Nat) :
    (onSubmit a b la lb false (ServerBehavior.respond (c :: rest)) t).comparisonResult =
      some c ∧
    onSubmit a b la lb false (ServerBehavior.respond (c :: rest)) t =
      onSubmit a b la lb false (ServerBehavior.respond (c :: rest')) t := by
  constructor <;> rfl

/-- C7: with right-side indices `[0, 2]` over `["a","b","c"]` and no
left-side indices, the results section renders exactly the missing
information heading and the two list items with 1-based sentence numbers
1 and 3; with both index lists empty it renders exactly the
no-significant-differences message and no list items. -/
theorem render_missing_information_exactly :
    (∀ la : List String,
      renderResults ⟨la, ["a", "b", "c"], [], [0, 2]⟩ =
        [RenderNode.heading "Missing Information in Translation",
         RenderNode.listItem "Sentence 1: \"a\"",
         RenderNode.listItem "Sentence 3: \"c\""]) ∧
    (∀ la ra : List String,
      renderResults ⟨la, ra, [], []⟩ =
        [RenderNode.message "No significant differences found between the texts."]) :=
  ⟨fun _ => rfl, fun _ _ => rfl⟩

/-- C8: `handleCompare` performs only the session-storage write — its
guarded navigation click is dead because the DOM query for the phase
button yields null — so in the full flow the write strictly precedes
the user click that triggers navigation to the comparison view; the
mount effect of that view then reads the value once and deletes it, so
a second mount observes no handoff value. -/
theorem handoff_written_before_navigation_read_once_deleted (p : CrossPageHandoff) :
    handleCompare p = [HandoffAction.write p] ∧
    writePrecedesNavigate (compareHandoffFlow p) = true ∧
    comparisonMountEffect (some p) = (some p, none) ∧
    (comparisonMountEffect (comparisonMountEffect (some p)).2).1 = none :=
  ⟨rfl, rfl, rfl, rfl⟩

/-- C9: without a synchronous throw the `start-backend` handler resolves
with success for every child-process outcome; the failure record the
`execFile` callback builds for a failed spawn is discarded and never
reaches the renderer. -/
theorem start_backend_resolves_success_despite_child_failure
    (childError : Option String) (msg : String) :
    startBackendHandler none childError = { success := true, error := none } ∧
    execFileCallback (some msg) = some { success := false, error := some msg } :=
  ⟨rfl, rfl⟩

/-- C10: the binary-or defaulting replaces explicitly configured falsy
values (port 0, threshold 0, empty base URL) by the defaults, and only
truthy configured values survive into the resolved constants. -/
theorem config_falsy_values_silently_replaced (configData : ConfigData) :
    (configData.BACKEND_PORT = some 0 →
      (initializeConstants configData).BACKEND_PORT = 8000) ∧
    (configData.SIMILARITY_THRESHOLD = some 0 →
      (initializeConstants configData).SIMILARITY_THRESHOLD = 0.65) ∧
    (configData.BACKEND_BASE_URL = some "" →
      (initializeConstants configData).BACKEND_BASE_URL =
        "http://127.0.0.1:" ++ toString (initializeConstants configData).BACKEND_PORT) ∧
    (∀ n : Int, configData.BACKEND_PORT = some n → n ≠ 0 →
      (initializeConstants configData).BACKEND_PORT = n) ∧
    (∀ q : ℚ, configData.SIMILARITY_THRESHOLD = some q → q ≠ 0 →
      (initializeConstants configData).SIMILARITY_THRESHOLD = q) ∧
    (∀ s : String, configData.BACKEND_BASE_URL = some s → s ≠ "" →
      (initializeConstants configData).BACKEND_BASE_URL = s) := by
  refine ⟨fun h => ?_, fun h => ?_, fun h => ?_,
    fun n h hn => ?_, fun q h hq => ?_, fun s h hs => ?_⟩
  · simp [initializeConstants, jsOrInt, h]
  · simp [initializeConstants, jsOrRat, h]
  · simp [initializeConstants, jsOrString, jsOrInt, h]
  · simp [initializeConstants, jsOrInt, h, hn]
  · simp [initializeConstants, jsOrRat, h, hq]
  · simp [initializeConstants, jsOrString, h, hs]

/-- Witness for C10: a file configuring port 0, threshold 0 and an empty
base URL resolves to the defaults, while a file configuring truthy
values keeps them. -/
theorem config_falsy_values_silently_replaced_witness :
    ((initializeConstants ⟨some "", some 0, none, none, none, some 0⟩).BACKEND_PORT = 8000 ∧
     (initializeConstants ⟨some "", some 0, none, none, none, some 0⟩).SIMILARITY_THRESHOLD = 0.65 ∧
     (initializeConstants ⟨some "", some 0, none, none, none, some 0⟩).BACKEND_BASE_URL =
       "http://127.0.0.1:" ++
         toString (initializeConstants ⟨some "", some 0, none, none, none, some 0⟩).BACKEND_PORT) ∧
    ((initializeConstants
        ⟨some "http://10.0.0.5:9000", some 9000, none, none, none, some (1/2)⟩).BACKEND_PORT = 9000 ∧
     (initializeConstants
        ⟨some "http://10.0.0.5:9000", some 9000, none, none, none, some (1/2)⟩).SIMILARITY_THRESHOLD = 1/2 ∧
     (initializeConstants
        ⟨some "http://10.0.0.5:9000", some 9000, none, none, none, some (1/2)⟩).BACKEND_BASE_URL =
       "http://10.0.0.5:9000") := by
  have hF := config_falsy_values_silently_replaced ⟨some "", some 0, none, none, none, some 0⟩
  have hT := config_falsy_values_silently_replaced
    ⟨some "http://10.0.0.5:9000", some 9000, none, none, none, some (1/2)⟩
  exact ⟨⟨hF.1 rfl, hF.2.1 rfl, hF.2.2.1 rfl⟩,
    ⟨hT.2.2.2.1 9000 rfl (by norm_num),
     hT.2.2.2.2.1 (1/2) rfl (by norm_num),
     hT.2.2.2.2.2 "http://10.0.0.5:9000" rfl (by decide)⟩⟩

end SymmetryFrontend
